import Mathlib

/-!
Verification of the gat run driver (`scripts/gatrun.py`).

The script drives the genomic annotation tool: it loads segment, annotation
and workspace interval files, collapses the workspaces into a single merged
workspace, prunes or isochore-stratifies the data, dispatches a counter, and
hands everything to the sampling/counting run; `main` then applies the global
q-value (FDR) correction once over the complete result set and serializes
result records as tab-separated lines.

The `gat` library module itself (interval collections, samplers, the Storey
q-value machinery) is not part of the repository's files here; its operations
are modelled from the specification's words, as marked on each definition.
The driver logic (`fromSegments`, `DummyAnnotatorResult`, `main`) is embedded
from `scripts/gatrun.py` directly; file reading and glob expansion are
external collaborators and enter as an explicit environment.
-/

set_option linter.unusedVariables false

namespace gat

/-- A half-open interval `(start, end)` with integer coordinates, on a single
contig (the contig axis adds nothing to the claims checked here and is
elided). -/
abbrev Interval := Nat × Nat

/-- An ordered collection of intervals on one track. -/
abbrev IntervalSet := List Interval

/-- Modelled from the spec: base-pair length of one half-open interval. -/
def intervalLength (x : Interval) : Nat := x.2 - x.1

/-- Modelled from the spec: the intersection of two half-open intervals;
`none` when the intersection is empty. -/
def intersectInterval (x y : Interval) : Option Interval :=
  let s := max x.1 y.1
  let e := min x.2 y.2
  if s < e then some (s, e) else none

/-- Modelled from the spec (`filter`): intersect every interval of `xs` with
the reference set `ref`; pieces with empty intersection are dropped. -/
def intersectSet (xs ref : IntervalSet) : IntervalSet :=
  xs.flatMap (fun x => ref.filterMap (fun y => intersectInterval x y))

/-- Insert one interval into a list sorted by start coordinate. -/
def insertByStart (x : Interval) : IntervalSet → IntervalSet
  | [] => [x]
  | y :: rest => if x.1 ≤ y.1 then x :: y :: rest else y :: insertByStart x rest

/-- Modelled from the spec (`normalize` step 1): sort intervals by start. -/
def sortByStart : IntervalSet → IntervalSet
  | [] => []
  | x :: rest => insertByStart x (sortByStart rest)

/-- Merge a run of sorted intervals, fusing any pair with `end_i >= start_j`
(touching or overlapping), starting from the current interval `cur`. -/
def mergeFrom (cur : Interval) : IntervalSet → IntervalSet
  | [] => [cur]
  | y :: rest =>
    if y.1 ≤ cur.2 then mergeFrom (cur.1, max cur.2 y.2) rest
    else cur :: mergeFrom y rest

/-- Modelled from the spec (`normalize` step 2 over a sorted list). -/
def mergeSorted : IntervalSet → IntervalSet
  | [] => []
  | x :: rest => mergeFrom x rest

/-- Modelled from the spec: `normalize()` sorts, then merges any pair of
intervals with `end_i >= start_j`. -/
def normalizeSet (xs : IntervalSet) : IntervalSet :=
  mergeSorted (sortByStart xs)

/-- Whether a sorted interval list has no overlap between neighbours. -/
def sortedNonOverlapping : IntervalSet → Bool
  | [] => true
  | [_] => true
  | x :: y :: rest => decide (x.2 ≤ y.1) && sortedNonOverlapping (y :: rest)

/-- Look up a track by name in an association list; `[]` when absent
(dictionary access in the source). -/
def getTrack : List (String × IntervalSet) → String → IntervalSet
  | [], _ => []
  | t :: rest, name => if t.1 = name then t.2 else getTrack rest name

/-- Whether a track of that name is present. -/
def hasTrack : List (String × IntervalSet) → String → Bool
  | [], _ => false
  | t :: rest, name => t.1 = name || hasTrack rest name

/-- Dictionary assignment: replace the first track of that name in place,
or append a new one. -/
def setTrack : List (String × IntervalSet) → String → IntervalSet →
    List (String × IntervalSet)
  | [], name, s => [(name, s)]
  | t :: rest, name, s =>
      if t.1 = name then (name, s) :: rest else t :: setTrack rest name s

/-- Modelled from the spec: an `IntervalCollection` maps track names to
interval sets (single contig, see `Interval`). -/
structure IntervalCollection where
  tracks : List (String × IntervalSet)
deriving DecidableEq

/-- All intervals of all tracks, in track order. -/
def allIntervals (c : IntervalCollection) : IntervalSet :=
  (c.tracks.map Prod.snd).flatten

/-- Modelled from the spec: per-track normalization. -/
def IntervalCollection.normalize (c : IntervalCollection) : IntervalCollection :=
  ⟨c.tracks.map (fun t => (t.1, normalizeSet t.2))⟩

/-- Modelled from the spec: per-track sort by start coordinate. -/
def IntervalCollection.sort (c : IntervalCollection) : IntervalCollection :=
  ⟨c.tracks.map (fun t => (t.1, sortByStart t.2))⟩

/-- Modelled from the spec: `check()` fails (`ConsistencyError`) when a track
holds overlapping segments; run on the sorted isochores. -/
def IntervalCollection.check (c : IntervalCollection) : Except String Unit :=
  if c.tracks.all (fun t => sortedNonOverlapping t.2) then Except.ok ()
  else Except.error ("ConsistencyError: overlapping segments within tracks")

/-- The single merged track `collapse()` synthesizes: the union of all
tracks' normalized intervals. -/
def collapsedTrack (c : IntervalCollection) : IntervalSet :=
  normalizeSet (allIntervals c.normalize)

/-- Modelled from the spec: `collapse()` produces a single track that is the
union of all existing tracks' normalized intervals, stored under the
pseudo-track name "collapsed" alongside the existing tracks. -/
def IntervalCollection.collapse (c : IntervalCollection) : IntervalCollection :=
  ⟨setTrack c.tracks "collapsed" (collapsedTrack c)⟩

/-- Modelled from the spec: `restrict(name)` discards all tracks except
`name`; fails if `name` is absent. -/
def IntervalCollection.restrict (c : IntervalCollection) (name : String) :
    Except String IntervalCollection :=
  if hasTrack c.tracks name then Except.ok ⟨[(name, getTrack c.tracks name)]⟩
  else Except.error ("track not present: " ++ name)

/-- Look up one track's interval set (dictionary access `coll[name]`). -/
def IntervalCollection.get (c : IntervalCollection) (name : String) : IntervalSet :=
  getTrack c.tracks name

/-- Modelled from the spec: `filter(referenceSet)` intersects every interval
in every track with the reference set; intervals with empty intersection are
dropped. -/
def IntervalCollection.filter (c : IntervalCollection) (ref : IntervalSet) :
    IntervalCollection :=
  ⟨c.tracks.map (fun t => (t.1, intersectSet t.2 ref))⟩

/-- Modelled from the spec: `toIsochores(isochoreSet)` splits every interval
over the isochore cells it falls in and re-keys the data per isochore. With
the contig axis elided, each track becomes the concatenation of its
intersections with every isochore track, which keeps track names intact (in
the source the isochore id is folded into the contig key). -/
def IntervalCollection.toIsochores (c iso : IntervalCollection) : IntervalCollection :=
  ⟨c.tracks.map (fun t => (t.1, iso.tracks.flatMap (fun i => intersectSet t.2 i.2)))⟩

/-- Modelled from the spec: `sum()` is the total base-pair length across all
intervals in all tracks. -/
def IntervalCollection.sum (c : IntervalCollection) : Nat :=
  (c.tracks.map (fun t => (t.2.map intervalLength).sum)).sum

/-- Modelled from the spec: `countsPerTrack()` is the number of intervals
per track. -/
def IntervalCollection.countsPerTrack (c : IntervalCollection) : List (String × Nat) :=
  c.tracks.map (fun t => (t.1, t.2.length))

/-- The sampler constructed by the driver (`gat.SamplerAnnotator`, called at
gatrun.py:206-208 with the two histogram configuration values). -/
structure SamplerAnnotator where
  bucket_size : Nat
  nbuckets : Nat
deriving DecidableEq

/-- The three counters the driver can construct (gatrun.py:213-221). Their
counting behaviour lives in the gat module; the driver only selects one. -/
inductive Counter where
  | CounterNucleotideOverlap
  | CounterNucleotideDensity
  | CounterSegmentOverlap
deriving DecidableEq

/-- Insert one p-value into an ascending list. -/
def insertAscending (x : ℚ) : List ℚ → List ℚ
  | [] => [x]
  | y :: rest => if x ≤ y then x :: y :: rest else y :: insertAscending x rest

/-- Sort p-values ascending. -/
def sortAscending : List ℚ → List ℚ
  | [] => []
  | x :: rest => insertAscending x (sortAscending rest)

/-- Modelled from the spec: the per-rank raw FDR values of Storey's
procedure; for the i-th smallest of m p-values the raw value is
`pi0 * m * p_i / i`. -/
def storeyRaw (pi0 : ℚ) (m : Nat) (ps : List ℚ) : List ℚ :=
  ps.enum.map (fun ip => pi0 * (m : ℚ) * ip.2 / ((ip.1 : ℚ) + 1))

/-- The step-up pass of Storey's procedure: each q-value is the minimum of
its own raw value and every raw value of a larger p-value,
`q_i = min (raw_i) (q_{i+1})`. -/
def stepUp : List ℚ → List ℚ
  | [] => []
  | x :: rest =>
    let qs := stepUp rest
    (match qs with
     | [] => x
     | q :: _ => min x q) :: qs

/-- Modelled from the spec: the q-value assignment of the global FDR step
(`gat.updateQValues`, method "storey"): sort the pair p-values ascending,
form the raw values `pi0 * m * p_i / i` and run the step-up pass. The
estimation of `pi0` (smoother or bootstrap over the lambda grid, fallback 1)
is external input here and enters as the parameter `pi0`; the returned list
is the q-values in ascending-p-value order. -/
def storeyQValues (pi0 : ℚ) (ps : List ℚ) : List ℚ :=
  stepUp (storeyRaw pi0 ps.length (sortAscending ps))

end gat

namespace gatrun

open gat

/-- The external collaborators of the driver: glob expansion over one
pattern, and the interval-file reader that populates named tracks from a
list of files (spec section 6). -/
structure Env where
  globFn : String → List String
  readTracks : List String → List (String × IntervalSet)

/-- The parsed command-line options `fromSegments` consumes
(gatrun.py:374-395 sets the defaults; field names follow the option
destinations). -/
structure Options where
  segment_files : List String
  annotation_files : List String
  workspace_files : List String
  sample_files : List String
  isochore_files : List String
  counter : String
  num_samples : Nat
  bucket_size : Nat
  nbuckets : Nat
  cache : Option String
  output_filename_counts : Option String
  output_samples_pattern : Option String
deriving DecidableEq

/-- `expandGlobs` of gatrun.py:84-85: glob every pattern and flatten. -/
def expandGlobs (globFn : String → List String) (infiles : List String) : List String :=
  (infiles.map globFn).flatten

/-- `readSegmentList` of gatrun.py:111-120: load one or more files into a
collection, then normalize it (the stats dumps are output only). -/
def readSegmentList (env : Env) (filenames : List String) : IntervalCollection :=
  (IntervalCollection.mk (env.readTracks filenames)).normalize

/-- gatrun.py:84-125: glob-expand the file lists, check that segment,
annotation and workspace files are present, and load the three collections
(in that order of checks and loads). -/
def loadedCollections (env : Env) (opts : Options) :
    Except String (IntervalCollection × IntervalCollection × IntervalCollection) :=
  let segment_files := expandGlobs env.globFn opts.segment_files
  let annotation_files := expandGlobs env.globFn opts.annotation_files
  let workspace_files := expandGlobs env.globFn opts.workspace_files
  if segment_files = [] then
    Except.error ("please specify at least one segment file")
  else if annotation_files = [] then
    Except.error ("please specify at least one annotation file")
  else if workspace_files = [] then
    Except.error ("please specify at least one workspace file")
  else
    Except.ok (readSegmentList env segment_files,
               readSegmentList env annotation_files,
               readSegmentList env workspace_files)

/-- gatrun.py:136-170, the isochore branch: load the isochore files, sort,
check for overlapping segments, normalize, stratify workspaces, annotations
and segments against the isochores, and abort when any of the three
stratified collections has base-pair sum zero. -/
def isochorePhase (env : Env) (opts : Options)
    (segments annotations workspaces : IntervalCollection) :
    Except String (IntervalCollection × IntervalCollection × IntervalCollection) :=
  let isochoresSorted := (IntervalCollection.mk (env.readTracks opts.isochore_files)).sort
  match isochoresSorted.check with
  | Except.error e => Except.error e
  | Except.ok _ =>
    let isochores := isochoresSorted.normalize
    let w := workspaces.toIsochores isochores
    let a := annotations.toIsochores isochores
    let s := segments.toIsochores isochores
    if w.sum = 0 then Except.error ("isochores and workspaces do not overlap")
    else if a.sum = 0 then Except.error ("isochores and annotations do not overlap")
    else if s.sum = 0 then Except.error ("isochores and segments do not overlap")
    else Except.ok (s, a, w)

/-- The isochores as the driver processes them before stratifying
(gatrun.py:139-151: load, sort, normalize; `check` does not modify). -/
def processedIsochores (env : Env) (opts : Options) : IntervalCollection :=
  ((IntervalCollection.mk (env.readTracks opts.isochore_files)).sort).normalize

/-- gatrun.py:122-180: load and normalize the three collections, collapse the
workspaces into the single pseudo-track "collapsed", discard every other
workspace track via `restrict`, then either stratify everything against the
isochores or intersect annotations and segments with the collapsed
workspace. -/
def preparedCollections (env : Env) (opts : Options) :
    Except String (IntervalCollection × IntervalCollection × IntervalCollection) :=
  match loadedCollections env opts with
  | Except.error e => Except.error e
  | Except.ok (segments, annotations, workspaces0) =>
    let workspaces1 := workspaces0.collapse
    match workspaces1.restrict "collapsed" with
    | Except.error e => Except.error e
    | Except.ok workspaces =>
      if opts.isochore_files ≠ [] then
        isochorePhase env opts segments annotations workspaces
      else
        let ws := workspaces.get "collapsed"
        Except.ok (segments.filter ws, annotations.filter ws, workspaces)

/-- gatrun.py:213-221: counter dispatch by name; any other name aborts the
run naming the unknown counter. -/
def counterFromName (name : String) : Except String Counter :=
  if name = "nucleotide-overlap" then Except.ok Counter.CounterNucleotideOverlap
  else if name = "nucleotide-density" then Except.ok Counter.CounterNucleotideDensity
  else if name = "segment-overlap" then Except.ok Counter.CounterSegmentOverlap
  else Except.error ("unknown counter '" ++ name ++ "'")

/-- The arguments of the sampling/counting run (the call to `gat.run` at
gatrun.py:228-237). -/
structure RunCall where
  segments : IntervalCollection
  annotations : IntervalCollection
  workspace : IntervalSet
  sampler : SamplerAnnotator
  counter : Counter
  num_samples : Nat
  cache : Option String
  output_counts : Option String
  output_samples_pattern : Option String
  sample_files : List String
deriving DecidableEq

/-- `fromSegments` (gatrun.py:76-239) up to the call to `gat.run`: prepare
the collections, look up the collapsed workspace, compute the per-track
interval counts and the memory figure of the previous algorithm
(gatrun.py:197-200, `max()` of an empty dict raises), construct sampler and
counter, and assemble the run call. -/
def fromSegments (env : Env) (opts : Options) : Except String RunCall :=
  match preparedCollections env opts with
  | Except.error e => Except.error e
  | Except.ok (segments, annotations, workspaces) =>
    let workspace := workspaces.get "collapsed"
    let counts := segments.countsPerTrack
    if counts = [] then Except.error ("max() arg is an empty sequence")
    else
      let max_counts := (counts.map Prod.snd).foldl max 0
      let memory := 8 * 2 * opts.num_samples * max_counts * workspace.length
      match counterFromName opts.counter with
      | Except.error e => Except.error e
      | Except.ok counter =>
        Except.ok
          { segments := segments
            annotations := annotations
            workspace := workspace
            sampler := ⟨opts.bucket_size, opts.nbuckets⟩
            counter := counter
            num_samples := opts.num_samples
            cache := opts.cache
            output_counts := opts.output_filename_counts
            output_samples_pattern := opts.output_samples_pattern
            sample_files := expandGlobs env.globFn opts.sample_files }

/-- `fromSegments` with the memory figure of gatrun.py:200 replaced by an
arbitrary value: the body is otherwise identical (the per-track counts and
their maximum, whose computation can still raise, are kept). -/
def fromSegmentsMem (memory : Nat) (env : Env) (opts : Options) : Except String RunCall :=
  match preparedCollections env opts with
  | Except.error e => Except.error e
  | Except.ok (segments, annotations, workspaces) =>
    let workspace := workspaces.get "collapsed"
    let counts := segments.countsPerTrack
    if counts = [] then Except.error ("max() arg is an empty sequence")
    else
      let max_counts := (counts.map Prod.snd).foldl max 0
      match counterFromName opts.counter with
      | Except.error e => Except.error e
      | Except.ok counter =>
        Except.ok
          { segments := segments
            annotations := annotations
            workspace := workspace
            sampler := ⟨opts.bucket_size, opts.nbuckets⟩
            counter := counter
            num_samples := opts.num_samples
            cache := opts.cache
            output_counts := opts.output_filename_counts
            output_samples_pattern := opts.output_samples_pattern
            sample_files := expandGlobs env.globFn opts.sample_files }

/-- The result record of gatrun.py:241-271, fields in declaration order of
`_fromLine` and `__str__`: track, annotation, observed, expected, lower95
(ci_low), upper95 (ci_high), stddev, fold, pvalue, qvalue. -/
structure DummyAnnotatorResult where
  track : String
  annotation : String
  observed : ℚ
  expected : ℚ
  lower95 : ℚ
  upper95 : ℚ
  stddev : ℚ
  fold : ℚ
  pvalue : ℚ
  qvalue : ℚ
deriving DecidableEq

/-- The four format attributes of `DummyAnnotatorResult`
(gatrun.py:243-246), as abstract numeric formatters (Python `%`-formatting
is external string work). -/
structure FormatEnv where
  format_observed : ℚ → String
  format_expected : ℚ → String
  format_fold : ℚ → String
  format_pvalue : ℚ → String

/-- The field strings of `__str__` (gatrun.py:261-271), in its exact order:
track, annotation, observed, expected, lower95, upper95, stddev, fold,
pvalue, qvalue. -/
def DummyAnnotatorResult.toFields (fmt : FormatEnv) :
    DummyAnnotatorResult → List String
  | ⟨t, a, o, e, l, u, s, f, p, q⟩ =>
    [t, a, fmt.format_observed o, fmt.format_expected e, fmt.format_expected l,
     fmt.format_expected u, fmt.format_expected s, fmt.format_fold f,
     fmt.format_pvalue p, fmt.format_pvalue q]

/-- `__str__`: the fields joined by tabs. -/
def DummyAnnotatorResult.toLine (fmt : FormatEnv) (r : DummyAnnotatorResult) : String :=
  String.intercalate "\t" (r.toFields fmt)

/-- The assignment step of `_fromLine` (gatrun.py:252-259): the first two
fields are track and annotation, the remaining fields are float-parsed and
unpacked into observed, expected, lower95, upper95, stddev, fold, pvalue,
qvalue; any other field count fails the unpacking. `float` is Python's float
parser, an external collaborator. -/
def DummyAnnotatorResult.fromFields (float : String → ℚ) :
    List String → Option DummyAnnotatorResult
  | [t, a, o, e, l, u, s, f, p, q] =>
    some ⟨t, a, float o, float e, float l, float u, float s, float f,
          float p, float q⟩
  | _ => none

/-- `_fromLine`: drop the trailing newline, split on tabs, assign. -/
def DummyAnnotatorResult.fromLine (float : String → ℚ) (line : String) :
    Option DummyAnnotatorResult :=
  DummyAnnotatorResult.fromFields float ((line.dropRight 1).splitOn "\t")

/-- The options of `main` that steer entry point and statistics
(gatrun.py:374-395). -/
structure MainOptions where
  input_filename_counts : Option String
  input_filename_results : Option String
  pvalue_method : String
  qvalue_method : String
  qvalue_lambda : Option ℚ
  qvalue_pi0_method : String
  output_order : String
deriving DecidableEq

/-- The three entry points of `main` (gatrun.py:401-407): precomputed
counts, a precomputed result table, or the full pipeline from segment
files. -/
inductive EntryPoint where
  | fromCounts (filename : String)
  | fromResultsFile (filename : String)
  | fromSegmentsFiles
deriving DecidableEq

/-- Entry-point selection of gatrun.py:401-407: counts file first, then
results file, else the full pipeline. -/
def entryPoint (opts : MainOptions) : EntryPoint :=
  match opts.input_filename_counts with
  | some f => EntryPoint.fromCounts f
  | none =>
    match opts.input_filename_results with
    | some f => EntryPoint.fromResultsFile f
    | none => EntryPoint.fromSegmentsFiles

/-- The observable steps of `main` after option parsing: obtaining the
complete result set, the optional p-value update, the global q-value (FDR)
step, and the ordered output (plotting reads results but assigns nothing,
and is omitted). -/
inductive MainEvent where
  | computeResults (entry : EntryPoint)
  | updatePValues (pvalue_method : String)
  | updateQValues (qvalue_method : String) (vlambda : Option ℚ) (pi0_method : String)
  | outputResults (order : String)
deriving DecidableEq

/-- Whether a step assigns q-values to the pair results: only the global FDR
step does. -/
def MainEvent.assignsQValues : MainEvent → Bool
  | MainEvent.updateQValues _ _ _ => true
  | _ => false

/-- The step sequence of `main` (gatrun.py:400-422 and 487-506): pick the
entry point and obtain the complete result set; update p-values when a
non-empirical method is configured; run the global q-value step with the
configured method, lambda and pi0 method; output the ordered table. -/
def mainEvents (opts : MainOptions) : List MainEvent :=
  [MainEvent.computeResults (entryPoint opts)] ++
  (if opts.pvalue_method ≠ "empirical" then
     [MainEvent.updatePValues opts.pvalue_method]
   else []) ++
  [MainEvent.updateQValues opts.qvalue_method opts.qvalue_lambda opts.qvalue_pi0_method,
   MainEvent.outputResults opts.output_order]

end gatrun

namespace gatrun
open gat

/-- A concrete environment for evaluation: every glob pattern expands to
itself and every file list loads one track "t1" with two intervals. -/
def envA : Env :=
  { globFn := fun f => [f]
    readTracks := fun _ => [("t1", [(0, 10), (20, 30)])] }

/-- Concrete options for a plain (non-isochore) run. -/
def optsA : Options :=
  { segment_files := ["s"], annotation_files := ["a"], workspace_files := ["w"],
    sample_files := [], isochore_files := [], counter := "nucleotide-overlap",
    num_samples := 10, bucket_size := 1, nbuckets := 100, cache := none,
    output_filename_counts := none, output_samples_pattern := none }

/-- The collection `envA` loads for any file list (already normalized). -/
def colA : IntervalCollection := IntervalCollection.mk [("t1", [(0, 10), (20, 30)])]

/-- The run call `fromSegments envA optsA` assembles. -/
def rcA : RunCall :=
  { segments := IntervalCollection.mk [("t1", [(0, 10), (20, 30)])]
    annotations := IntervalCollection.mk [("t1", [(0, 10), (20, 30)])]
    workspace := [(0, 10), (20, 30)]
    sampler := ⟨1, 100⟩
    counter := Counter.CounterNucleotideOverlap
    num_samples := 10
    cache := none
    output_counts := none
    output_samples_pattern := none
    sample_files := [] }

/-- A concrete environment for an isochore run: the isochore file list loads
one cell covering `[0, 100)`, everything else loads track "t1". -/
def envB : Env :=
  { globFn := fun f => [f]
    readTracks := fun files =>
      if files = ["iso"] then [("i1", [(0, 100)])]
      else [("t1", [(0, 10), (20, 30)])] }

/-- Concrete options for an isochore run. -/
def optsB : Options := { optsA with isochore_files := ["iso"] }

/-- A concrete environment whose isochore cell `[100, 200)` misses the
workspace entirely. -/
def envC : Env :=
  { globFn := fun f => [f]
    readTracks := fun files =>
      if files = ["iso"] then [("i1", [(100, 200)])]
      else [("t1", [(0, 10)])] }

/-- Concrete options for the disjoint-isochore run. -/
def optsC : Options := { optsA with isochore_files := ["iso"] }

/-- The collection `envC` loads for the segment, annotation and workspace
file lists. -/
def colC : IntervalCollection := IntervalCollection.mk [("t1", [(0, 10)])]

end gatrun

namespace gat

theorem getTrack_setTrack (ts : List (String × IntervalSet)) (name : String)
    (s : IntervalSet) : getTrack (setTrack ts name s) name = s := by
  induction ts with
  | nil => simp [setTrack, getTrack]
  | cons t rest ih =>
    by_cases h : t.1 = name
    · simp [setTrack, getTrack, h]
    · simp [setTrack, getTrack, h, ih]

theorem hasTrack_setTrack (ts : List (String × IntervalSet)) (name : String)
    (s : IntervalSet) : hasTrack (setTrack ts name s) name = true := by
  induction ts with
  | nil => simp [setTrack, hasTrack]
  | cons t rest ih =>
    by_cases h : t.1 = name
    · simp [setTrack, hasTrack, h]
    · simp [setTrack, hasTrack, h, ih]

theorem restrict_collapse (c : IntervalCollection) :
    c.collapse.restrict "collapsed" =
      Except.ok (IntervalCollection.mk [("collapsed", collapsedTrack c)]) := by
  simp [IntervalCollection.collapse, IntervalCollection.restrict,
        hasTrack_setTrack, getTrack_setTrack]

theorem get_singleton (name : String) (s : IntervalSet) :
    (IntervalCollection.mk [(name, s)]).get name = s := by
  simp [IntervalCollection.get, getTrack]

theorem stepUp_chain (xs : List ℚ) : (stepUp xs).Chain' (· ≤ ·) := by
  induction xs with
  | nil => simp [stepUp]
  | cons x rest ih =>
    cases h : stepUp rest with
    | nil => simp [stepUp, h]
    | cons q qs =>
      have hx : stepUp (x :: rest) = min x q :: q :: qs := by
        simp [stepUp, h]
      rw [hx]
      rw [h] at ih
      exact List.chain'_cons.mpr ⟨min_le_right x q, ih⟩

end gat

namespace gatrun
open gat

theorem preparedCollections_eq (env : Env) (opts : Options)
    (segs anns wss : IntervalCollection)
    (hload : loadedCollections env opts = Except.ok (segs, anns, wss)) :
    preparedCollections env opts =
      if opts.isochore_files ≠ [] then
        isochorePhase env opts segs anns
          (IntervalCollection.mk [("collapsed", collapsedTrack wss)])
      else
        Except.ok (segs.filter (collapsedTrack wss),
                   anns.filter (collapsedTrack wss),
                   IntervalCollection.mk [("collapsed", collapsedTrack wss)]) := by
  simp only [preparedCollections, hload, restrict_collapse, get_singleton]

end gatrun

namespace gatrun
open gat

theorem fromSegments_components (env : Env) (opts : Options)
    (segs anns wss : IntervalCollection) (rc : RunCall)
    (hp : preparedCollections env opts = Except.ok (segs, anns, wss))
    (h : fromSegments env opts = Except.ok rc) :
    rc.segments = segs ∧ rc.annotations = anns ∧
    rc.workspace = wss.get "collapsed" ∧
    counterFromName opts.counter = Except.ok rc.counter ∧
    rc.sampler = ⟨opts.bucket_size, opts.nbuckets⟩ ∧
    rc.num_samples = opts.num_samples ∧
    rc.sample_files = expandGlobs env.globFn opts.sample_files := by
  unfold fromSegments at h
  rw [hp] at h
  dsimp only at h
  split at h
  · cases h
  · split at h
    · cases h
    · next c heq =>
      injection h with h
      subst h
      exact ⟨rfl, rfl, rfl, heq, rfl, rfl, rfl⟩

theorem fromSegments_err (env : Env) (opts : Options) (e : String)
    (hp : preparedCollections env opts = Except.error e) :
    fromSegments env opts = Except.error e := by
  unfold fromSegments
  rw [hp]

end gatrun

namespace gatrun
open gat

theorem isochorePhase_ok (env : Env) (opts : Options)
    (segs anns ws : IntervalCollection)
    (p : IntervalCollection × IntervalCollection × IntervalCollection)
    (h : isochorePhase env opts segs anns ws = Except.ok p) :
    ((IntervalCollection.mk (env.readTracks opts.isochore_files)).sort).check =
      Except.ok () ∧
    p = (segs.toIsochores (processedIsochores env opts),
         anns.toIsochores (processedIsochores env opts),
         ws.toIsochores (processedIsochores env opts)) := by
  unfold isochorePhase at h
  simp only [] at h
  split at h
  · cases h
  · next u heq =>
    refine ⟨by rw [heq], ?_⟩
    unfold processedIsochores
    split at h
    · cases h
    · split at h
      · cases h
      · split at h
        · cases h
        · injection h with h
          subst h
          rfl

theorem isochorePhase_zero_sums (env : Env) (opts : Options)
    (segs anns ws : IntervalCollection)
    (hchk : ((IntervalCollection.mk (env.readTracks opts.isochore_files)).sort).check =
      Except.ok ()) :
    ((ws.toIsochores (processedIsochores env opts)).sum = 0 →
      isochorePhase env opts segs anns ws =
        Except.error ("isochores and workspaces do not overlap")) ∧
    ((ws.toIsochores (processedIsochores env opts)).sum ≠ 0 →
     (anns.toIsochores (processedIsochores env opts)).sum = 0 →
      isochorePhase env opts segs anns ws =
        Except.error ("isochores and annotations do not overlap")) ∧
    ((ws.toIsochores (processedIsochores env opts)).sum ≠ 0 →
     (anns.toIsochores (processedIsochores env opts)).sum ≠ 0 →
     (segs.toIsochores (processedIsochores env opts)).sum = 0 →
      isochorePhase env opts segs anns ws =
        Except.error ("isochores and segments do not overlap")) := by
  simp only [isochorePhase, hchk, processedIsochores]
  refine ⟨fun hw => ?_, fun hw ha => ?_, fun hw ha hs => ?_⟩
  · rw [if_pos hw]
  · rw [if_neg hw, if_pos ha]
  · rw [if_neg hw, if_neg ha, if_pos hs]

end gatrun

namespace gat

theorem get_collapse (c : IntervalCollection) :
    c.collapse.get "collapsed" = collapsedTrack c := by
  simp [IntervalCollection.collapse, IntervalCollection.get, getTrack_setTrack]

end gat

namespace gatrun
open gat

/-- Claim C1: in the full pipeline entry point, after loading and
normalizing, the workspace tracks are collapsed into the single pseudo-track
"collapsed" — the union of all workspace tracks' normalized intervals — all
other workspace tracks are discarded via restrict("collapsed"), and the
workspace handed to the sampling/counting run is exactly this collapsed
track (isochore-stratified on the isochore path). -/
theorem fromSegments_workspace_is_collapsed_union
    (env : Env) (opts : Options) (segs anns wss : IntervalCollection) (rc : RunCall)
    (hload : loadedCollections env opts = Except.ok (segs, anns, wss))
    (hrun : fromSegments env opts = Except.ok rc) :
    wss.collapse.get "collapsed" = collapsedTrack wss ∧
    wss.collapse.restrict "collapsed" =
      Except.ok (IntervalCollection.mk [("collapsed", collapsedTrack wss)]) ∧
    (opts.isochore_files = [] → rc.workspace = collapsedTrack wss) ∧
    (opts.isochore_files ≠ [] →
      rc.workspace =
        ((IntervalCollection.mk [("collapsed", collapsedTrack wss)]).toIsochores
          (processedIsochores env opts)).get "collapsed") := by
  refine ⟨get_collapse wss, restrict_collapse wss, ?_, ?_⟩
  · intro hiso
    have hp := preparedCollections_eq env opts segs anns wss hload
    rw [if_neg (by simp [hiso])] at hp
    obtain ⟨-, -, hw, -⟩ := fromSegments_components env opts _ _ _ rc hp hrun
    rw [hw, get_singleton]
  · intro hiso
    have hp := preparedCollections_eq env opts segs anns wss hload
    rw [if_pos hiso] at hp
    cases hq : preparedCollections env opts with
    | error e => rw [fromSegments_err env opts e hq] at hrun; cases hrun
    | ok p =>
      obtain ⟨s2, a2, w2⟩ := p
      have hq2 := hq
      rw [hp] at hq2
      obtain ⟨-, hpp⟩ := isochorePhase_ok env opts segs anns _ _ hq2
      obtain ⟨-, -, hw, -⟩ := fromSegments_components env opts s2 a2 w2 rc hq hrun
      simp only [Prod.mk.injEq] at hpp
      rw [hw, hpp.2.2]

/-- Claim C2: on a run without isochore files, both the annotation and the
segment collection are filtered against the collapsed workspace (every
interval intersected with it, empty intersections dropped) before the
sampling/counting run receives them. -/
theorem fromSegments_prunes_to_collapsed_workspace
    (env : Env) (opts : Options) (segs anns wss : IntervalCollection) (rc : RunCall)
    (hload : loadedCollections env opts = Except.ok (segs, anns, wss))
    (hiso : opts.isochore_files = [])
    (hrun : fromSegments env opts = Except.ok rc) :
    rc.annotations = anns.filter (collapsedTrack wss) ∧
    rc.segments = segs.filter (collapsedTrack wss) := by
  have hp := preparedCollections_eq env opts segs anns wss hload
  rw [if_neg (by simp [hiso])] at hp
  obtain ⟨hs, ha, -, -⟩ := fromSegments_components env opts _ _ _ rc hp hrun
  exact ⟨ha, hs⟩

/-- Claim C3: on a run with isochore files, the segment and annotation
collections handed to the sampling/counting run are exactly the loaded
collections stratified by toIsochores — the workspace-pruning filter step is
never applied on this path. -/
theorem fromSegments_isochore_path_skips_filter
    (env : Env) (opts : Options) (segs anns wss : IntervalCollection) (rc : RunCall)
    (hload : loadedCollections env opts = Except.ok (segs, anns, wss))
    (hiso : opts.isochore_files ≠ [])
    (hrun : fromSegments env opts = Except.ok rc) :
    rc.segments = segs.toIsochores (processedIsochores env opts) ∧
    rc.annotations = anns.toIsochores (processedIsochores env opts) := by
  have hp := preparedCollections_eq env opts segs anns wss hload
  rw [if_pos hiso] at hp
  cases hq : preparedCollections env opts with
  | error e => rw [fromSegments_err env opts e hq] at hrun; cases hrun
  | ok p =>
    obtain ⟨s2, a2, w2⟩ := p
    have hq2 := hq
    rw [hp] at hq2
    obtain ⟨-, hpp⟩ := isochorePhase_ok env opts segs anns _ _ hq2
    obtain ⟨hs, ha, -, -⟩ := fromSegments_components env opts s2 a2 w2 rc hq hrun
    simp only [Prod.mk.injEq] at hpp
    exact ⟨hs.trans hpp.1, ha.trans hpp.2.1⟩

/-- Claim C7: on the isochore path, after stratifying against the isochores,
a base-pair sum of zero in the workspace, annotation or segment collection
aborts the run with the matching descriptive error. -/
theorem fromSegments_isochore_zero_sum_aborts
    (env : Env) (opts : Options) (segs anns wss : IntervalCollection)
    (hload : loadedCollections env opts = Except.ok (segs, anns, wss))
    (hiso : opts.isochore_files ≠ [])
    (hchk : ((IntervalCollection.mk (env.readTracks opts.isochore_files)).sort).check =
      Except.ok ()) :
    (((IntervalCollection.mk [("collapsed", collapsedTrack wss)]).toIsochores
        (processedIsochores env opts)).sum = 0 →
      fromSegments env opts =
        Except.error ("isochores and workspaces do not overlap")) ∧
    (((IntervalCollection.mk [("collapsed", collapsedTrack wss)]).toIsochores
        (processedIsochores env opts)).sum ≠ 0 →
     (anns.toIsochores (processedIsochores env opts)).sum = 0 →
      fromSegments env opts =
        Except.error ("isochores and annotations do not overlap")) ∧
    (((IntervalCollection.mk [("collapsed", collapsedTrack wss)]).toIsochores
        (processedIsochores env opts)).sum ≠ 0 →
     (anns.toIsochores (processedIsochores env opts)).sum ≠ 0 →
     (segs.toIsochores (processedIsochores env opts)).sum = 0 →
      fromSegments env opts =
        Except.error ("isochores and segments do not overlap")) := by
  have hp := preparedCollections_eq env opts segs anns wss hload
  rw [if_pos hiso] at hp
  obtain ⟨h1, h2, h3⟩ := isochorePhase_zero_sums env opts segs anns
    (IntervalCollection.mk [("collapsed", collapsedTrack wss)]) hchk
  refine ⟨fun hw => ?_, fun hw ha => ?_, fun hw ha hs => ?_⟩
  · exact fromSegments_err env opts _ (hp.trans (h1 hw))
  · exact fromSegments_err env opts _ (hp.trans (h2 hw ha))
  · exact fromSegments_err env opts _ (hp.trans (h3 hw ha hs))

/-- Witness for C1 at a concrete input: a successful plain run whose run
call carries the collapsed workspace. -/
theorem fromSegments_workspace_is_collapsed_union_witness :
    fromSegments envA optsA = Except.ok rcA ∧
    rcA.workspace = collapsedTrack colA :=
  ⟨rfl, (fromSegments_workspace_is_collapsed_union envA optsA colA colA colA rcA
    rfl rfl).2.2.1 rfl⟩

/-- Witness for C2 at a concrete input. -/
theorem fromSegments_prunes_to_collapsed_workspace_witness :
    rcA.annotations = colA.filter (collapsedTrack colA) ∧
    rcA.segments = colA.filter (collapsedTrack colA) :=
  fromSegments_prunes_to_collapsed_workspace envA optsA colA colA colA rcA
    rfl rfl rfl

/-- Witness for C3 at a concrete input: a successful isochore run. -/
theorem fromSegments_isochore_path_skips_filter_witness :
    rcA.segments = colA.toIsochores (processedIsochores envB optsB) ∧
    rcA.annotations = colA.toIsochores (processedIsochores envB optsB) :=
  fromSegments_isochore_path_skips_filter envB optsB colA colA colA rcA
    rfl (by decide) rfl

/-- Witness for C7 at a concrete input: an isochore set disjoint from the
workspace aborts the run. -/
theorem fromSegments_isochore_zero_sum_aborts_witness :
    fromSegments envC optsC =
      Except.error ("isochores and workspaces do not overlap") :=
  (fromSegments_isochore_zero_sum_aborts envC optsC colC colC colC
    rfl (by decide) rfl).1 rfl

end gatrun

namespace gat

/-- Claim C5: the q-values assigned by the global FDR step are monotonic
non-decreasing when the pairs are ordered by ascending p-value: the q-value
list produced in ascending-p order is a non-decreasing chain, for any pi0
and any finite p-value list. -/
theorem storeyQValues_monotone_nondecreasing (pi0 : ℚ) (ps : List ℚ) :
    List.Chain' (· ≤ ·) (storeyQValues pi0 ps) :=
  stepUp_chain (storeyRaw pi0 ps.length (sortAscending ps))

end gat

namespace gatrun
open gat

/-- Claim C4: on every entry point of main — precomputed counts, a
precomputed result table, or the full pipeline — the global q-value (FDR)
step is run exactly once, with the configured qvalue_method, qvalue_lambda
and pi0 method, after the complete result set is obtained and before output;
no step before it assigns q-values. -/
theorem main_runs_qvalue_step_exactly_once (opts : MainOptions) :
    ∃ pre : List MainEvent,
      mainEvents opts =
        MainEvent.computeResults (entryPoint opts) ::
          (pre ++
            [MainEvent.updateQValues opts.qvalue_method opts.qvalue_lambda
               opts.qvalue_pi0_method,
             MainEvent.outputResults opts.output_order]) ∧
      (∀ e ∈ pre, e.assignsQValues = false) ∧
      (mainEvents opts).countP MainEvent.assignsQValues = 1 := by
  by_cases h : opts.pvalue_method = "empirical"
  · refine ⟨[], ?_, ?_, ?_⟩
    · simp [mainEvents, h]
    · intro e he; cases he
    · simp [mainEvents, h, List.countP_cons, MainEvent.assignsQValues]
  · refine ⟨[MainEvent.updatePValues opts.pvalue_method], ?_, ?_, ?_⟩
    · simp [mainEvents, h]
    · intro e he
      simp only [List.mem_singleton] at he
      subst he
      rfl
    · simp [mainEvents, h, List.countP_cons, MainEvent.assignsQValues]

/-- Claim C6: a result record serializes as a tab-separated line whose
fields stand in the fixed order track, annotation, observed, expected,
ci_low (lower95), ci_high (upper95), stddev, fold, pvalue, qvalue, and
parsing a field list of that shape assigns the ten fields back in the same
order, so serializing then parsing realigns every slot with itself. -/
theorem result_line_round_trip_field_order (fmt : FormatEnv) (float : String → ℚ)
    (t a : String) (o e l u s f p q : ℚ) :
    DummyAnnotatorResult.toLine fmt ⟨t, a, o, e, l, u, s, f, p, q⟩ =
      String.intercalate "\t"
        [t, a, fmt.format_observed o, fmt.format_expected e,
         fmt.format_expected l, fmt.format_expected u, fmt.format_expected s,
         fmt.format_fold f, fmt.format_pvalue p, fmt.format_pvalue q] ∧
    DummyAnnotatorResult.fromFields float
        (DummyAnnotatorResult.toFields fmt ⟨t, a, o, e, l, u, s, f, p, q⟩) =
      some ⟨t, a, float (fmt.format_observed o), float (fmt.format_expected e),
            float (fmt.format_expected l), float (fmt.format_expected u),
            float (fmt.format_expected s), float (fmt.format_fold f),
            float (fmt.format_pvalue p), float (fmt.format_pvalue q)⟩ :=
  ⟨rfl, rfl⟩

/-- Claim C8: the counter names "nucleotide-overlap", "nucleotide-density"
and "segment-overlap" construct the matching counters; any other configured
counter name yields the descriptive error naming the unknown counter, and a
run so configured never reaches the sampling/counting call. -/
theorem counter_dispatch_table (name : String)
    (hname : name ∉ (["nucleotide-overlap", "nucleotide-density",
      "segment-overlap"] : List String)) :
    counterFromName "nucleotide-overlap" =
      Except.ok Counter.CounterNucleotideOverlap ∧
    counterFromName "nucleotide-density" =
      Except.ok Counter.CounterNucleotideDensity ∧
    counterFromName "segment-overlap" =
      Except.ok Counter.CounterSegmentOverlap ∧
    counterFromName name = Except.error ("unknown counter '" ++ name ++ "'") ∧
    (∀ env opts rc, opts.counter = name → fromSegments env opts ≠ Except.ok rc) := by
  simp only [List.mem_cons, List.mem_singleton, not_or] at hname
  obtain ⟨h1, h2, h3, -⟩ := hname
  have herr : counterFromName name =
      Except.error ("unknown counter '" ++ name ++ "'") := by
    unfold counterFromName
    rw [if_neg h1, if_neg h2, if_neg h3]
  refine ⟨rfl, rfl, rfl, herr, ?_⟩
  intro env opts rc hcn hok
  cases hp : preparedCollections env opts with
  | error e => rw [fromSegments_err env opts e hp] at hok; cases hok
  | ok p =>
    obtain ⟨s2, a2, w2⟩ := p
    obtain ⟨-, -, -, hc, -⟩ := fromSegments_components env opts s2 a2 w2 rc hp hok
    rw [hcn, herr] at hc
    cases hc

/-- Witness for C8 at a concrete unknown counter name. -/
theorem counter_dispatch_table_witness :
    counterFromName "nucleotide-overlap" =
      Except.ok Counter.CounterNucleotideOverlap ∧
    counterFromName "nucleotide-density" =
      Except.ok Counter.CounterNucleotideDensity ∧
    counterFromName "segment-overlap" =
      Except.ok Counter.CounterSegmentOverlap ∧
    counterFromName "base-overlap" =
      Except.error ("unknown counter '" ++ "base-overlap" ++ "'") ∧
    (∀ env opts rc, opts.counter = "base-overlap" →
      fromSegments env opts ≠ Except.ok rc) :=
  counter_dispatch_table "base-overlap" (by decide)

/-- Claim C9: in the full pipeline entry point, an empty glob-expanded
segment, annotation or workspace file list aborts the run with the matching
descriptive error, whatever the file reader would have returned — no
interval data is consulted. -/
theorem fromSegments_requires_input_files (globFn : String → List String)
    (opts : Options) :
    (expandGlobs globFn opts.segment_files = [] →
      ∀ rt, fromSegments ⟨globFn, rt⟩ opts =
        Except.error ("please specify at least one segment file")) ∧
    (expandGlobs globFn opts.segment_files ≠ [] →
     expandGlobs globFn opts.annotation_files = [] →
      ∀ rt, fromSegments ⟨globFn, rt⟩ opts =
        Except.error ("please specify at least one annotation file")) ∧
    (expandGlobs globFn opts.segment_files ≠ [] →
     expandGlobs globFn opts.annotation_files ≠ [] →
     expandGlobs globFn opts.workspace_files = [] →
      ∀ rt, fromSegments ⟨globFn, rt⟩ opts =
        Except.error ("please specify at least one workspace file")) := by
  refine ⟨fun hs rt => ?_, fun hs ha rt => ?_, fun hs ha hw rt => ?_⟩
  · apply fromSegments_err
    have hl : loadedCollections ⟨globFn, rt⟩ opts =
        Except.error ("please specify at least one segment file") := by
      unfold loadedCollections
      simp only []
      rw [if_pos hs]
    unfold preparedCollections
    rw [hl]
  · apply fromSegments_err
    have hl : loadedCollections ⟨globFn, rt⟩ opts =
        Except.error ("please specify at least one annotation file") := by
      unfold loadedCollections
      simp only []
      rw [if_neg hs, if_pos ha]
    unfold preparedCollections
    rw [hl]
  · apply fromSegments_err
    have hl : loadedCollections ⟨globFn, rt⟩ opts =
        Except.error ("please specify at least one workspace file") := by
      unfold loadedCollections
      simp only []
      rw [if_neg hs, if_neg ha, if_pos hw]
    unfold preparedCollections
    rw [hl]

/-- Witness for C9: with a glob function expanding every pattern to nothing,
the run aborts asking for segment files. -/
theorem fromSegments_requires_input_files_witness :
    fromSegments ⟨fun _ => [], fun _ => []⟩ optsA =
      Except.error ("please specify at least one segment file") :=
  (fromSegments_requires_input_files (fun _ => []) optsA).1 rfl (fun _ => [])

/-- Claim C10, counterexample: the memory figure of gatrun.py:197-200 has no
influence on the run — replacing it by any value yields the same function,
and a concrete run produces the identical run call. -/
theorem fromSegmentsMem_value_immaterial :
    fromSegmentsMem 0 = fromSegmentsMem 999999999 ∧
    fromSegmentsMem 0 envA optsA = Except.ok rcA ∧
    fromSegmentsMem 999999999 envA optsA = Except.ok rcA :=
  ⟨rfl, rfl, rfl⟩

/-- Claim C10, amended: fromSegments computes the memory figure
8 * 2 * num_samples * max per-track count * workspace length from
countsPerTrack, but the value is dead — the assembled run call is identical
whatever value stands in its place. -/
theorem fromSegments_memory_estimate_unused (memory : Nat) (env : Env)
    (opts : Options) :
    fromSegmentsMem memory env opts = fromSegments env opts := rfl

end gatrun
